import Mathlib

/-!
Shallow embedding of the hardware-interface core of `aalto_meg.py`
(class `AaltoMEG`): trigger-code output, the blocking edge-wait loops
for button presses and finger lifts, the grip-correctness check, and
the debounced wait-until-held-correctly loop.

Modelling conventions:
* Time is `ℚ` (seconds).  The monotonic clock `core.Clock()` is modelled
  by an explicit `elapsed` parameter: `clock.getTime()` at the top of a
  loop iteration returns the total time elapsed since the clock was
  created at the start of the call.  All elapsed time is charged to the
  blocking device reads; bookkeeping between reads is instantaneous.
* Each blocking `task.read(timeout=...)` consumes one `ReadEvent` from a
  trace describing the environment: the read's duration and its outcome
  (data snapshot, the nidaqmx timeout error `DaqReadError` with code
  -200284, or a `DaqReadError` with any other code).
* Snapshots are the integers `task.read` returns: port-wide bit masks
  over `ℕ`, tested with `&&&` against `1 <<< line` exactly as the source
  tests `button & (1 << LINE)`.
* `random.choice(xs)` is modelled as selecting `xs[i % len(xs)]` for an
  arbitrary index `i`; on an empty list it fails like Python's
  `IndexError`.  `random.random()` is modelled as a `ℚ` draw supplied by
  the caller.
* Exceptions become explicit result constructors: a propagated
  `DaqReadError` is `deviceError code`; the `ValueError` of
  `send_trigger_code` is `Except.error`.  A trace too short to finish
  the call yields `blocked` (the real call would still be inside a
  blocking read).
-/

/-- Line constants from the top of `aalto_meg.py` (zero-indexed bit
positions on port0). -/
def LEFT_BUTTON_LINE : ℕ := 25

/-- Right response pad is on line 26. -/
def RIGHT_BUTTON_LINE : ℕ := 26

/-- First finger channel (right index finger) is on line 17; channel
`c` (1-8) sits on line `17 + c - 1`. -/
def RESPONSE_PAD_CHANNEL1_LINE : ℕ := 17

/-- Outcome of one blocking `task.read(timeout=...)` call. -/
inductive ReadOutcome where
  /-- The read returned a data sample (a port-wide bit mask). -/
  | event (snapshot : ℕ)
  /-- The read raised `DaqReadError` with `error_code == -200284`
  (the timeout was reached). -/
  | timeoutErr
  /-- The read raised `DaqReadError` with some other `error_code`. -/
  | ioErr (code : ℤ)
deriving DecidableEq, Repr

/-- One blocking device read as the environment sees it: how long the
call blocked (`dur`, seconds) and what it produced. -/
structure ReadEvent where
  dur : ℚ
  out : ReadOutcome
deriving DecidableEq, Repr

/-- The `enable_channels` argument: the string `"all"` or a list of
channel numbers. -/
inductive EnableArg where
  | all
  | chans (cs : List ℕ)
deriving DecidableEq, Repr

/-- `if enable_channels == "all": enable_channels = [1, 2, 3, 4, 5, 6, 7, 8]`. -/
def normalizeChannels : EnableArg → List ℕ
  | .all => [1, 2, 3, 4, 5, 6, 7, 8]
  | .chans cs => cs

/-- `random.choice(xs)` modelled as picking the element at an arbitrary
index `i` (reduced mod the length); `none` models the `IndexError`
raised on an empty list. -/
def pyChoice {α : Type} (xs : List α) (i : ℕ) : Option α :=
  xs.get? (i % xs.length)

/-- The per-channel finger-lift test of `wait_for_response`
(src lines 210-215):
`mask = 1 << (RESPONSE_PAD_CHANNEL1_LINE + channel - 1)`;
channel 1 or 2 triggers when `(button & mask) == 0`, channel ≥ 3
triggers when `button & mask` is nonzero. -/
def liftTriggered (channel button : ℕ) : Bool :=
  let mask := 1 <<< (RESPONSE_PAD_CHANNEL1_LINE + channel - 1)
  if (channel = 1 ∨ channel = 2) ∧ button &&& mask = 0 then true
  else if 3 ≤ channel ∧ button &&& mask ≠ 0 then true
  else false

/-- The per-channel "not held correctly" test of
`check_response_pad_held_correctly` (src lines 277-283), repeated
verbatim inside `wait_until_response_pad_held_correctly`
(src lines 358-363): channel 1 or 2 violates when its bit is clear,
channel ≥ 3 violates when its bit is set. -/
def gripViolation (channel data : ℕ) : Bool :=
  let mask := 1 <<< (RESPONSE_PAD_CHANNEL1_LINE + channel - 1)
  if (channel = 1 ∨ channel = 2) ∧ data &&& mask = 0 then true
  else if 3 ≤ channel ∧ data &&& mask ≠ 0 then true
  else false

/-- The `for`/`else` over `enable_channels`: the pad is held correctly
iff no enabled channel violates its polarity rule. -/
def grip_ok (channels : List ℕ) (data : ℕ) : Bool :=
  channels.all fun channel => !gripViolation channel data

/-- Button decoding of `wait_for_button_press` (src lines 126-129):
`if button & (1 << LEFT_BUTTON_LINE): return "left"
elif button & (1 << RIGHT_BUTTON_LINE): return "right"`;
`none` means neither matched and the loop continues. -/
def decodeButton (button : ℕ) : Option String :=
  if button &&& (1 <<< LEFT_BUTTON_LINE) ≠ 0 then some "left"
  else if button &&& (1 <<< RIGHT_BUTTON_LINE) ≠ 0 then some "right"
  else none

/-- Finger-lift decoding of `wait_for_response` (src lines 210-215):
the first channel in `enable_channels`, in the order the caller listed
them, whose polarity test succeeds on the snapshot. -/
def decodeResponse (enable_channels : List ℕ) (button : ℕ) : Option ℕ :=
  enable_channels.find? fun channel => liftTriggered channel button

/-- Result of a wait call.  `response r` is a returned value, `timedOut`
is the `return None` taken when the timeout is absorbed, `deviceError`
is a re-raised `DaqReadError`, `pyError` is another uncaught Python
exception (e.g. `IndexError`), and `blocked` means the supplied trace
ended while the call was still inside a blocking read. -/
inductive WaitResult (α : Type) where
  | response (r : α)
  | timedOut
  | deviceError (code : ℤ)
  | pyError
  | blocked
deriving DecidableEq, Repr

/-- The loop guard `timeout is None or timeout > 0`. -/
def loopCond : Option ℚ → Bool
  | none => true
  | some t => decide (0 < t)

/-- The per-iteration update
`if timeout is not None: timeout = max(timeout - clock.getTime(), 0)`,
where `clock.getTime()` returns `elapsed`.  The updated value is also
what is passed to `task.read` (`none` stands for `WAIT_INFINITELY`). -/
def stepTimeout (timeout : Option ℚ) (elapsed : ℚ) : Option ℚ :=
  timeout.map fun t => max (t - elapsed) 0

/-- The blocking-read loop of `wait_for_button_press` (src lines
118-138).  Returns the call's outcome together with the list of timeout
values passed to the successive `task.read` calls. -/
def buttonLoop (timeout : Option ℚ) (elapsed : ℚ)
    (trace : List ReadEvent) : WaitResult String × List (Option ℚ) :=
  if loopCond timeout then
      let remaining := stepTimeout timeout elapsed
      match trace with
      | [] => (.blocked, [remaining])
      | e :: rest =>
        match e.out with
        | .event snapshot =>
          match decodeButton snapshot with
          | some b => (.response b, [remaining])
          | none =>
            let next := buttonLoop remaining (elapsed + e.dur) rest
            (next.1, remaining :: next.2)
        | .timeoutErr => (.timedOut, [remaining])
        | .ioErr code => (.deviceError code, [remaining])
    else (.timedOut, [])
termination_by structural trace

/-- The blocking-read loop of `wait_for_response` (src lines 202-224),
parameterised by the (already normalized) enabled channels. -/
def respLoop (channels : List ℕ) (timeout : Option ℚ) (elapsed : ℚ)
    (trace : List ReadEvent) : WaitResult ℕ × List (Option ℚ) :=
  if loopCond timeout then
      let remaining := stepTimeout timeout elapsed
      match trace with
      | [] => (.blocked, [remaining])
      | e :: rest =>
        match e.out with
        | .event snapshot =>
          match decodeResponse channels snapshot with
          | some c => (.response c, [remaining])
          | none =>
            let next := respLoop channels remaining (elapsed + e.dur) rest
            (next.1, remaining :: next.2)
        | .timeoutErr => (.timedOut, [remaining])
        | .ioErr code => (.deviceError code, [remaining])
    else (.timedOut, [])
termination_by structural trace

/-- `wait_for_button_press(timeout=...)` (src lines 79-138).  In fake
mode it sleeps and returns `random.choice(["left", "right"])` without
ever touching the device or the timeout; otherwise it runs the
edge-wait loop with a clock started at 0. -/
def wait_for_button_press (fake : Bool) (rngIdx : ℕ) (timeout : Option ℚ)
    (trace : List ReadEvent) : WaitResult String × List (Option ℚ) :=
  if fake then
    match pyChoice ["left", "right"] rngIdx with
    | some b => (.response b, [])
    | none => (.pyError, [])
  else
    buttonLoop timeout 0 trace

/-- `wait_for_response(timeout=..., enable_channels=...)` (src lines
140-224).  In fake mode it sleeps and returns
`random.choice(enable_channels)` after normalizing `"all"`. -/
def wait_for_response (fake : Bool) (rngIdx : ℕ) (timeout : Option ℚ)
    (enable_channels : EnableArg) (trace : List ReadEvent) :
    WaitResult ℕ × List (Option ℚ) :=
  let channels := normalizeChannels enable_channels
  if fake then
    match pyChoice channels rngIdx with
    | some c => (.response c, [])
    | none => (.pyError, [])
  else
    respLoop channels timeout 0 trace

/-- `check_response_pad_held_correctly(enable_channels=...)` (src lines
226-283).  In fake mode the result is `random.random() > 0.9` with
`rng` the draw; in real mode the device samples 10 values at 2 kHz and
the check is evaluated on the last one (`lastSample`). -/
def check_response_pad_held_correctly (fake : Bool) (rng : ℚ)
    (lastSample : ℕ) (enable_channels : EnableArg) : Bool :=
  let channels := normalizeChannels enable_channels
  if fake then decide (rng > 9 / 10)
  else grip_ok channels lastSample

/-- Result of `wait_until_response_pad_held_correctly`: the returned
boolean, a re-raised `DaqReadError`, or a trace that ended mid-read. -/
inductive GripResult where
  | ret (correct : Bool)
  | deviceError (code : ℤ)
  | blocked
deriving DecidableEq, Repr

/-- The debounce loop of `wait_until_response_pad_held_correctly`
(src lines 349-377).  Each iteration: recompute the remaining timeout,
block on an edge read; on a snapshot whose grip is correct, issue the
silent-window read `task.read(timeout=0.2)` — its timeout error sets
`correct = True` (confirmed), while an edge within the window or any
other `DaqReadError` (caught with no re-raise) leaves `correct` false
and the loop continues.  An outer-read timeout error returns `False`;
any other outer-read `DaqReadError` is re-raised. -/
def gripLoop (channels : List ℕ) (timeout : Option ℚ) (elapsed : ℚ)
    (trace : List ReadEvent) : GripResult × List (Option ℚ) :=
  if loopCond timeout then
      let remaining := stepTimeout timeout elapsed
      match trace with
      | [] => (.blocked, [remaining])
      | e :: rest =>
        match e.out with
        | .timeoutErr => (.ret false, [remaining])
        | .ioErr code => (.deviceError code, [remaining])
        | .event data =>
          if grip_ok channels data then
            match rest with
            | [] => (.blocked, [remaining, some (1 / 5)])
            | e2 :: rest2 =>
              match e2.out with
              | .timeoutErr => (.ret true, [remaining, some (1 / 5)])
              | _ =>
                let next :=
                  gripLoop channels remaining (elapsed + e.dur + e2.dur) rest2
                (next.1, remaining :: some (1 / 5) :: next.2)
          else
            let next := gripLoop channels remaining (elapsed + e.dur) rest
            (next.1, remaining :: next.2)
    else (.ret false, [])
termination_by structural trace

/-- `wait_until_response_pad_held_correctly(timeout=..., enable_channels=...)`
(src lines 285-377).  It first calls `check_response_pad_held_correctly`
(one clocked read, last sample `checkSample`); if that returns `True`
the call returns `True` at once.  In fake mode it then sleeps and
returns `True`.  Otherwise it runs the debounce loop. -/
def wait_until_response_pad_held_correctly (fake : Bool) (rng : ℚ)
    (checkSample : ℕ) (timeout : Option ℚ) (enable_channels : EnableArg)
    (trace : List ReadEvent) : GripResult × List (Option ℚ) :=
  if check_response_pad_held_correctly fake rng checkSample enable_channels then
    (.ret true, [])
  else
    let channels := normalizeChannels enable_channels
    if fake then (.ret true, [])
    else gripLoop channels timeout 0 trace

/-- One observable action on the parallel port. -/
inductive PortAction where
  | setData (value : ℤ)
  | hold (seconds : ℚ)
deriving DecidableEq, Repr

/-- `send_trigger_code(code)` (src lines 53-77): codes outside 1-127
raise `ValueError` before anything else happens; fake mode only sleeps;
real mode writes the code, holds 3 ms, writes 0. -/
def send_trigger_code (fake : Bool) (code : ℤ) :
    Except String (List PortAction) :=
  if ¬(1 ≤ code ∧ code ≤ 127) then
    Except.error "Trigger codes need to be in the range 1-127."
  else if fake then
    Except.ok [PortAction.hold (3 / 1000)]
  else
    Except.ok [PortAction.setData code, PortAction.hold (3 / 1000),
               PortAction.setData 0]

/-- Trace for the countdown analysis of `wait_for_response(timeout=10,
enable_channels=[1])`: each device read returns after 4 s with an edge
snapshot on which no enabled channel qualifies (bit 17 still set, so
the active-low channel 1 has not lifted — e.g. an edge on a disabled
line). -/
def countdownTrace : List ReadEvent :=
  [⟨4, .event (2 ^ 17)⟩, ⟨4, .event (2 ^ 17)⟩, ⟨4, .event (2 ^ 17)⟩]

/-- Trace for the error-propagation analysis of
`wait_until_response_pad_held_correctly(enable_channels=[1])`: an edge
whose snapshot holds the pad correctly (bit 17 set), then a
`DaqReadError` with code -50103 raised by the 200 ms silent-window
read, then another correct edge and a silent window that passes. -/
def swallowTrace : List ReadEvent :=
  [⟨1, .event (2 ^ 17)⟩, ⟨1 / 10, .ioErr (-50103)⟩,
   ⟨1, .event (2 ^ 17)⟩, ⟨1 / 5, .timeoutErr⟩]

/-- `n & (1 << k) == 0` holds exactly when bit `k` of `n` is clear. -/
theorem and_one_shiftLeft_eq_zero (n k : ℕ) :
    n &&& 1 <<< k = 0 ↔ n.testBit k = false := by
  rw [Nat.one_shiftLeft, Nat.and_two_pow]
  cases h : n.testBit k <;> simp [pow_ne_zero]

/-- `random.choice` on a nonempty list returns some element of it. -/
theorem pyChoice_mem {α : Type} (xs : List α) (i : ℕ) (h : xs ≠ []) :
    ∃ a, pyChoice xs i = some a ∧ a ∈ xs := by
  have hlen : i % xs.length < xs.length :=
    Nat.mod_lt _ (List.length_pos.mpr h)
  refine ⟨xs.get ⟨i % xs.length, hlen⟩, ?_, List.get_mem ..⟩
  simp [pyChoice, List.get?_eq_get hlen]

/-- Claim C7: for every code in 1..127, `send_trigger_code` performs
exactly the output sequence "write the code, hold 3 ms, write 0"; for
every code outside 1..127 it raises `ValueError` in every mode and
performs no write to the output channel at all (a successful call is
only possible for codes in range). -/
theorem c7_trigger_code_contract (code : ℤ) :
    (1 ≤ code ∧ code ≤ 127 →
      send_trigger_code false code =
        Except.ok [PortAction.setData code, PortAction.hold (3 / 1000),
                   PortAction.setData 0]) ∧
    (¬(1 ≤ code ∧ code ≤ 127) → ∀ fake,
      send_trigger_code fake code =
        Except.error "Trigger codes need to be in the range 1-127.") ∧
    (∀ fake acts, send_trigger_code fake code = Except.ok acts →
      1 ≤ code ∧ code ≤ 127) := by
  refine ⟨fun h => ?_, fun h fake => ?_, fun fake acts hok => ?_⟩
  · simp [send_trigger_code, h]
  · simp [send_trigger_code, h]
  · by_contra hc
    simp [send_trigger_code, hc] at hok

/-- Claim C7 witness, at the in-range code 5 and the out-of-range code
200. -/
theorem c7_trigger_code_contract_witness :
    ((1 : ℤ) ≤ 5 ∧ (5 : ℤ) ≤ 127) ∧
    send_trigger_code false 5 =
      Except.ok [PortAction.setData 5, PortAction.hold (3 / 1000),
                 PortAction.setData 0] ∧
    ¬((1 : ℤ) ≤ 200 ∧ (200 : ℤ) ≤ 127) ∧
    send_trigger_code true 200 =
      Except.error "Trigger codes need to be in the range 1-127." :=
  ⟨by norm_num, (c7_trigger_code_contract 5).1 (by norm_num),
   by norm_num, (c7_trigger_code_contract 200).2.1 (by norm_num) true⟩

/-- Claim C8: in the button-press wait, a snapshot with the Left bit
(line 25) set always decodes to "left" — in particular the simultaneous
Left+Right snapshot deterministically yields "left" (tie-break) — and
"right" is decoded exactly when the Right bit (line 26) is set while
the Left bit is not. -/
theorem c8_left_button_tiebreak (snapshot : ℕ) :
    (snapshot.testBit LEFT_BUTTON_LINE = true →
      decodeButton snapshot = some "left" ∧
      ∀ d : ℚ, (wait_for_button_press false 0 none [⟨d, .event snapshot⟩]).1 =
        .response "left") ∧
    (decodeButton snapshot = some "right" ↔
      snapshot.testBit RIGHT_BUTTON_LINE = true ∧
      snapshot.testBit LEFT_BUTTON_LINE = false) := by
  have h25 := and_one_shiftLeft_eq_zero snapshot LEFT_BUTTON_LINE
  have h26 := and_one_shiftLeft_eq_zero snapshot RIGHT_BUTTON_LINE
  cases hL : snapshot.testBit LEFT_BUTTON_LINE <;>
    cases hR : snapshot.testBit RIGHT_BUTTON_LINE <;>
      simp [hL, hR] at h25 h26 <;>
        simp [decodeButton, wait_for_button_press, buttonLoop, loopCond,
          stepTimeout, h25, h26]

/-- Claim C8 witness at the simultaneous Left+Right snapshot and at a
Right-only snapshot. -/
theorem c8_left_button_tiebreak_witness :
    (2 ^ 25 + 2 ^ 26 : ℕ).testBit LEFT_BUTTON_LINE = true ∧
    decodeButton (2 ^ 25 + 2 ^ 26) = some "left" ∧
    (wait_for_button_press false 0 none [⟨1, .event (2 ^ 25 + 2 ^ 26)⟩]).1 =
      .response "left" ∧
    decodeButton (2 ^ 26) = some "right" :=
  have h := c8_left_button_tiebreak (2 ^ 25 + 2 ^ 26)
  have h2 := c8_left_button_tiebreak (2 ^ 26)
  ⟨by decide, (h.1 (by decide)).1, (h.1 (by decide)).2 1,
   h2.2.mpr (by decide)⟩

/-- Claim C9: `wait_for_button_press(timeout=0)` in real mode returns
`None` at once: the guard `timeout > 0` fails, the blocking-read loop
is never entered, and no device read is issued (the read-timeout list
is empty), for every possible environment trace. -/
theorem c9_zero_timeout_reads_nothing (rngIdx : ℕ) (trace : List ReadEvent) :
    wait_for_button_press false rngIdx (some 0) trace = (.timedOut, []) := by
  simp [wait_for_button_press, buttonLoop, loopCond]

/-- Claim C10: in fake mode both wait calls never consult the timeout
or the device: the result is identical for any two timeout values and
any two device traces, and it is always a `response` drawn from the
declared domain ("left"/"right" for the button pad, the normalized
`enable_channels` for finger lifts, provided that list is nonempty). -/
theorem c10_fake_mode_ignores_timeout (i : ℕ) (t1 t2 : Option ℚ)
    (ea : EnableArg) (tr1 tr2 : List ReadEvent) :
    wait_for_button_press true i t1 tr1 = wait_for_button_press true i t2 tr2 ∧
    (∃ b, (wait_for_button_press true i t1 tr1).1 = .response b ∧
      b ∈ ["left", "right"]) ∧
    wait_for_response true i t1 ea tr1 = wait_for_response true i t2 ea tr2 ∧
    (normalizeChannels ea ≠ [] →
      ∃ c, (wait_for_response true i t1 ea tr1).1 = .response c ∧
        c ∈ normalizeChannels ea) := by
  refine ⟨rfl, ?_, rfl, fun hne => ?_⟩
  · obtain ⟨b, hb, hmem⟩ := pyChoice_mem ["left", "right"] i (by simp)
    exact ⟨b, by simp [wait_for_button_press, hb], hmem⟩
  · obtain ⟨c, hc, hmem⟩ := pyChoice_mem (normalizeChannels ea) i hne
    exact ⟨c, by simp [wait_for_response, hc], hmem⟩

/-- Claim C10 witness at `enable_channels=[4,7]`, `timeout=0`. -/
theorem c10_fake_mode_ignores_timeout_witness :
    normalizeChannels (.chans [4, 7]) ≠ [] ∧
    ∃ c, (wait_for_response true 0 (some 0) (.chans [4, 7]) []).1 =
        .response c ∧ c ∈ normalizeChannels (.chans [4, 7]) :=
  ⟨by simp [normalizeChannels],
   (c10_fake_mode_ignores_timeout 0 (some 0) none (.chans [4, 7]) [] []).2.2.2
     (by simp [normalizeChannels])⟩

/-- Claim C6 counterexample: in simulation mode the check is a fresh
draw `random.random() > 0.9` on every call, so two consecutive calls
with no intervening change to any line state (draws 0.95 then 0.5)
disagree. -/
theorem c6_fake_check_not_idempotent :
    check_response_pad_held_correctly true (19 / 20) 0 .all = true ∧
    check_response_pad_held_correctly true (1 / 2) 0 .all = false ∧
    check_response_pad_held_correctly true (19 / 20) 0 .all ≠
      check_response_pad_held_correctly true (1 / 2) 0 .all := by
  norm_num [check_response_pad_held_correctly]

/-- Claim C6 amended: in real (non-simulation) mode
`check_response_pad_held_correctly` is a pure function of the sampled
line states and the enabled channels — it does not consult the random
stream — so two consecutive calls with no intervening change to the
line states return the same boolean. -/
theorem c6_real_check_pure (rng rng2 : ℚ) (lastSample : ℕ)
    (enable_channels : EnableArg) :
    check_response_pad_held_correctly false rng lastSample enable_channels =
      check_response_pad_held_correctly false rng2 lastSample enable_channels :=
  rfl

/-- Claim C5 counterexample: channel 3 of the grip check is ActiveHigh,
not ActiveLow: with its bit (line 19) set, the grip check triggers
("not held correctly"), and with the bit clear it does not — so the
triggered condition on a grip-check line corresponds to the bit being
SET for channels 3-8, refuting "the whole grip-check line set is
ActiveLow". -/
theorem c5_grip_line3_not_active_low :
    gripViolation 3 (2 ^ 19) = true ∧ gripViolation 3 0 = false := by
  decide

/-- Claim C5 amended: finger-lift decoding and the grip-correctness
check apply exactly the same fixed per-channel polarity rules: channels
1-2 are ActiveLow (triggered iff the channel bit, line `16 + c`, is
clear) while channels 3-8 — including in the grip check — are
ActiveHigh (triggered iff the bit is set); the button pad is ActiveHigh
(no press is decoded iff both button bits are clear). -/
theorem c5_polarity_rules (snapshot : ℕ) :
    (∀ c, c = 1 ∨ c = 2 →
      liftTriggered c snapshot = !snapshot.testBit (16 + c) ∧
      gripViolation c snapshot = !snapshot.testBit (16 + c)) ∧
    (∀ c, 3 ≤ c → c ≤ 8 →
      liftTriggered c snapshot = snapshot.testBit (16 + c) ∧
      gripViolation c snapshot = snapshot.testBit (16 + c)) ∧
    (decodeButton snapshot = none ↔
      snapshot.testBit LEFT_BUTTON_LINE = false ∧
      snapshot.testBit RIGHT_BUTTON_LINE = false) := by
  refine ⟨fun c hc => ?_, fun c hc3 hc8 => ?_, ?_⟩
  · have hc3 : ¬ 3 ≤ c := by omega
    have hidx : RESPONSE_PAD_CHANNEL1_LINE + c - 1 = 16 + c := by
      simp only [RESPONSE_PAD_CHANNEL1_LINE]; omega
    have hb := and_one_shiftLeft_eq_zero snapshot (16 + c)
    cases htb : snapshot.testBit (16 + c) <;> simp [htb] at hb <;>
      simp [liftTriggered, gripViolation, hidx, hc, hc3, htb, hb]
  · have hc12 : ¬(c = 1 ∨ c = 2) := by omega
    have hidx : RESPONSE_PAD_CHANNEL1_LINE + c - 1 = 16 + c := by
      simp only [RESPONSE_PAD_CHANNEL1_LINE]; omega
    have hb := and_one_shiftLeft_eq_zero snapshot (16 + c)
    cases htb : snapshot.testBit (16 + c) <;> simp [htb] at hb <;>
      simp [liftTriggered, gripViolation, hidx, hc12, hc3, htb, hb]
  · have h25 := and_one_shiftLeft_eq_zero snapshot LEFT_BUTTON_LINE
    have h26 := and_one_shiftLeft_eq_zero snapshot RIGHT_BUTTON_LINE
    cases hL : snapshot.testBit LEFT_BUTTON_LINE <;>
      cases hR : snapshot.testBit RIGHT_BUTTON_LINE <;>
        simp [hL, hR] at h25 h26 <;>
          simp [decodeButton, h25, h26]

/-- Claim C5 witness: the polarity facts instantiated on the snapshot
with only line 19 (channel 3) set. -/
theorem c5_polarity_rules_witness :
    (liftTriggered 1 (2 ^ 19) = !(2 ^ 19 : ℕ).testBit 17 ∧
      gripViolation 1 (2 ^ 19) = !(2 ^ 19 : ℕ).testBit 17) ∧
    (liftTriggered 3 (2 ^ 19) = (2 ^ 19 : ℕ).testBit 19 ∧
      gripViolation 3 (2 ^ 19) = (2 ^ 19 : ℕ).testBit 19) :=
  ⟨(c5_polarity_rules (2 ^ 19)).1 1 (Or.inl rfl),
   (c5_polarity_rules (2 ^ 19)).2.1 3 (by norm_num) (by norm_num)⟩

/-- Claim C4 counterexample: with `enable_channels=[3,1]` and a
snapshot (only line 19 set) on which both channel 1 (ActiveLow) and
channel 3 (ActiveHigh) qualify, the call returns 3 — the first channel
in the caller-supplied order — not the lowest-numbered channel 1. -/
theorem c4_lowest_channel_counterexample :
    liftTriggered 1 (2 ^ 19) = true ∧ liftTriggered 3 (2 ^ 19) = true ∧
    (wait_for_response false 0 (some 10) (.chans [3, 1])
        [⟨1, .event (2 ^ 19)⟩]).1 = .response 3 ∧
    (WaitResult.response 3 : WaitResult ℕ) ≠ .response 1 := by
  refine ⟨by decide, by decide, ?_, by decide⟩
  norm_num [wait_for_response, respLoop, loopCond, stepTimeout,
    normalizeChannels, decodeResponse, List.find?, liftTriggered,
    RESPONSE_PAD_CHANNEL1_LINE, Nat.shiftLeft_eq]

/-- Claim C4 amended: the channels are examined in the order the caller
listed them and the first channel whose polarity test succeeds is
returned; consequently, whenever `enable_channels` is listed in
ascending order (as the default all-channels list and the example
`[1,2,3]` are), the lowest-numbered qualifying channel wins — and a
snapshot on which channel 1 qualifies makes `[1,2,3]` return 1. -/
theorem c4_first_listed_channel_wins :
    (∀ (channels : List ℕ) (snapshot c : ℕ),
      List.Sorted (· ≤ ·) channels →
      decodeResponse channels snapshot = some c →
      liftTriggered c snapshot = true ∧ c ∈ channels ∧
        ∀ d ∈ channels, liftTriggered d snapshot = true → c ≤ d) ∧
    (∀ snapshot, liftTriggered 1 snapshot = true →
      decodeResponse [1, 2, 3] snapshot = some 1) := by
  constructor
  · intro channels
    induction channels with
    | nil => intro s c _ hfind; simp [decodeResponse] at hfind
    | cons a l ih =>
      intro s c hsort hfind
      by_cases hpa : liftTriggered a s = true
      · obtain rfl : a = c := by
          have h2 : some a = some c := by
            simpa only [decodeResponse, List.find?, hpa] using hfind
          injection h2
        refine ⟨hpa, List.mem_cons_self .., fun d hd _ => ?_⟩
        rcases List.mem_cons.mp hd with rfl | hdl
        · exact le_refl _
        · exact List.rel_of_sorted_cons hsort d hdl
      · have hpaf : liftTriggered a s = false := by simpa using hpa
        have hfind2 : decodeResponse l s = some c := by
          simpa only [decodeResponse, List.find?, hpaf] using hfind
        obtain ⟨h1, h2, h3⟩ := ih s c hsort.of_cons hfind2
        refine ⟨h1, List.mem_cons_of_mem _ h2, fun d hd htr => ?_⟩
        rcases List.mem_cons.mp hd with rfl | hdl
        · exact absurd htr hpa
        · exact h3 d hdl htr
  · intro s h
    simp [decodeResponse, List.find?, h]

/-- Claim C4 witness: the ascending list `[1,3]` on the line-19
snapshot returns channel 1, the lowest qualifying channel, and the
spec's `[1,2,3]` example also returns 1. -/
theorem c4_first_listed_channel_wins_witness :
    List.Sorted (· ≤ ·) [1, 3] ∧
    decodeResponse [1, 3] (2 ^ 19) = some 1 ∧
    (liftTriggered 1 (2 ^ 19) = true ∧ 1 ∈ [1, 3] ∧
      ∀ d ∈ [1, 3], liftTriggered d (2 ^ 19) = true → 1 ≤ d) ∧
    decodeResponse [1, 2, 3] (2 ^ 19) = some 1 :=
  ⟨by decide, by decide,
   c4_first_listed_channel_wins.1 [1, 3] (2 ^ 19) 1 (by decide) (by decide),
   c4_first_listed_channel_wins.2 (2 ^ 19) (by decide)⟩

/-- Claim C1 (code bug): the loop invariant
`remaining = max(original_timeout - elapsed_since_start, 0)` fails from
the third read on.  On `wait_for_response(timeout=10)` with three
non-qualifying reads of 4 s each, the reads are issued with timeouts
10, 6 and 0 — but after 8 s elapsed the invariant requires
`max(10 - 8, 0) = 2`, not 0: the code subtracts the cumulative clock
value from the already-reduced timeout variable, so the call gives up
at 8 s instead of 10 s. -/
theorem c1_countdown_double_subtraction :
    wait_for_response false 0 (some 10) (.chans [1]) countdownTrace =
      (.timedOut, [some 10, some 6, some 0]) ∧
    max ((10 : ℚ) - (4 + 4)) 0 = 2 ∧
    (some (0 : ℚ)) ≠ (some (2 : ℚ)) := by
  refine ⟨?_, by norm_num, by norm_num⟩
  norm_num [wait_for_response, respLoop, loopCond, stepTimeout,
    normalizeChannels, countdownTrace, decodeResponse, List.find?,
    liftTriggered, RESPONSE_PAD_CHANNEL1_LINE, Nat.shiftLeft_eq]

/-- Claim C2 (code bug): a non-timeout `DaqReadError` (code -50103)
raised by the inner 200 ms silent-window read is silently swallowed:
the call continues looping and even returns `True` once a later window
passes, instead of propagating the device error to the caller. -/
theorem c2_inner_read_error_swallowed :
    (ReadEvent.mk (1 / 10) (.ioErr (-50103))) ∈ swallowTrace ∧
    (wait_until_response_pad_held_correctly false 0 0 none (.chans [1])
        swallowTrace).1 = .ret true ∧
    GripResult.ret true ≠ .deviceError (-50103) := by
  refine ⟨by simp [swallowTrace], ?_, by simp⟩
  norm_num [wait_until_response_pad_held_correctly,
    check_response_pad_held_correctly, gripLoop, loopCond, stepTimeout,
    normalizeChannels, swallowTrace, grip_ok, gripViolation,
    RESPONSE_PAD_CHANNEL1_LINE, Nat.shiftLeft_eq]

/-- Claim C3: once an edge snapshot evaluates the grip as correct, a
silent-window read of up to 200 ms (`task.read(timeout=0.2)`) is
attempted.  (i) If that read times out (no edge in the window) the call
returns confirmed.  (ii) If an edge arrives within the window,
confirmation is withheld and the call behaves exactly like a fresh wait
on the remaining trace.  (iii) In particular a flicker with nothing
after it leaves the call still waiting for edges, and (iv) the full
flicker scenario (correct, an edge after `d2 ≤ 0.2` s, correct again
and stable) returns `true` only via the second full 200 ms edge-free
window. -/
theorem c3_flicker_resets_debounce (channels : List ℕ)
    (elapsed d1 d2 d3 d4 : ℚ) (s sFlick s2 : ℕ) (rest : List ReadEvent)
    (hok : grip_ok channels s = true) (hok2 : grip_ok channels s2 = true)
    (hwin : d2 ≤ 1 / 5) (hfull : d4 = 1 / 5) :
    gripLoop channels none elapsed
        (⟨d1, .event s⟩ :: ⟨d4, .timeoutErr⟩ :: rest) =
      (.ret true, [none, some (1 / 5)]) ∧
    gripLoop channels none elapsed
        (⟨d1, .event s⟩ :: ⟨d2, .event sFlick⟩ :: rest) =
      ((gripLoop channels none (elapsed + d1 + d2) rest).1,
        none :: some (1 / 5) ::
          (gripLoop channels none (elapsed + d1 + d2) rest).2) ∧
    (gripLoop channels none elapsed
        [⟨d1, .event s⟩, ⟨d2, .event sFlick⟩]).1 = .blocked ∧
    (gripLoop channels none elapsed
        [⟨d1, .event s⟩, ⟨d2, .event sFlick⟩, ⟨d3, .event s2⟩,
         ⟨d4, .timeoutErr⟩]).1 = .ret true := by
  refine ⟨?_, ?_, ?_, ?_⟩
  · rw [gripLoop.eq_def]
    simp [loopCond, stepTimeout, hok]
  · rw [gripLoop.eq_def]
    simp [loopCond, stepTimeout, hok]
  · rw [gripLoop.eq_def]
    simp [gripLoop.eq_def, loopCond, stepTimeout, hok]
  · rw [gripLoop.eq_def]
    simp [gripLoop.eq_def, loopCond, stepTimeout, hok, hok2]

/-- Claim C3 witness: enabled channel 1, grip-correct snapshot bit 17
set, flicker edge after 0.1 s, re-settle, stable 200 ms window. -/
theorem c3_flicker_resets_debounce_witness :
    (grip_ok [1] (2 ^ 17) = true ∧ (1 / 10 : ℚ) ≤ 1 / 5 ∧
      ((1 / 5 : ℚ) = 1 / 5)) ∧
    (gripLoop [1] none 0
        [⟨1, .event (2 ^ 17)⟩, ⟨1 / 10, .event 0⟩, ⟨1, .event (2 ^ 17)⟩,
         ⟨1 / 5, .timeoutErr⟩]).1 = .ret true ∧
    (gripLoop [1] none 0 [⟨1, .event (2 ^ 17)⟩, ⟨1 / 10, .event 0⟩]).1 =
      .blocked :=
  have h := c3_flicker_resets_debounce [1] 0 1 (1 / 10) 1 (1 / 5)
    (2 ^ 17) 0 (2 ^ 17) [] (by decide) (by decide) (by norm_num) rfl
  ⟨⟨by decide, by norm_num, rfl⟩, h.2.2.2, h.2.2.1⟩
